import Mathlib

/-!
Verification of `scripts/generate_placeholder_icons.py`.

The script is a one-shot asset-generation tool: it holds a static table
mapping output filenames to (width, height) pairs and, for each entry,
synthesizes a bitmap (background fill, rounded-rectangle border, centered
letter glyph) and saves it as a PNG into a fixed output directory.

We embed the script shallowly: the interactions with the outside world
(existence of the output directory, availability of the two system fonts,
the glyph metrics reported by the font library, and whether a save
succeeds) are collected into an `Env` record, and the script becomes a
pure function from `Env` to a run result (printed lines, files written,
whether an exception escaped).  Machine integers are `Nat`/`Int`;
Python's floor division `//` on ints is `Int.fdiv`.
-/

namespace PlaceholderIcons

/-- The fixed output directory (`output_dir` in the script). -/
def output_dir : String := "SwipeSort/Assets.xcassets/AppIcon.appiconset"

/-- The static size table `sizes`, in source order (Python dicts preserve
insertion order, and `main` iterates `sizes.items()` in that order).
Each entry is (filename, width, height). -/
def sizes : List (String × Nat × Nat) :=
  [ ("AppIcon-20x20@1x.png", 20, 20),
    ("AppIcon-20x20@2x.png", 40, 40),
    ("AppIcon-20x20@3x.png", 60, 60),
    ("AppIcon-29x29@1x.png", 29, 29),
    ("AppIcon-29x29@2x.png", 58, 58),
    ("AppIcon-29x29@3x.png", 87, 87),
    ("AppIcon-40x40@1x.png", 40, 40),
    ("AppIcon-40x40@2x.png", 80, 80),
    ("AppIcon-40x40@3x.png", 120, 120),
    ("AppIcon-60x60@2x.png", 120, 120),
    ("AppIcon-60x60@3x.png", 180, 180),
    ("AppIcon-76x76@1x.png", 76, 76),
    ("AppIcon-76x76@2x.png", 152, 152),
    ("AppIcon-83.5x83.5@2x.png", 167, 167),
    ("AppIcon-1024x1024.png", 1024, 1024) ]

/-- A font handle, as produced by `ImageFont.truetype(path, size)` or
`ImageFont.load_default()`. -/
inductive Font where
  | truetype (path : String) (size : Nat)
  | defaultFont
  deriving DecidableEq, Repr

/-- A drawing operation recorded on the canvas, mirroring the two
`ImageDraw` calls of `create_placeholder_icon`.  Coordinates are the
inclusive pixel coordinates PIL uses. -/
inductive DrawCmd where
  | roundedRect (corner0 corner1 : Int × Int) (radius : Nat)
      (fill outline : String) (strokeWidth : Nat)
  | text (pos : Int × Int) (s : String) (fill : String) (font : Font)
  deriving DecidableEq, Repr

/-- The in-memory image: `Image.new('RGB', (width, height), color)` plus
the drawing operations performed on it.  Saving as PNG (a lossless
format) preserves mode, pixel dimensions and content. -/
structure Icon where
  mode : String
  width : Nat
  height : Nat
  background : String
  cmds : List DrawCmd
  deriving DecidableEq, Repr

/-- The environment a run observes: whether the output directory exists,
whether each of the two system font files loads, the glyph bounding box
the library reports (`draw.textbbox((0, 0), text, font)`, returning
(x0, y0, x1, y1)), and which saves raise. -/
structure Env where
  dirExists : Bool
  helveticaAvailable : Bool
  arialAvailable : Bool
  bboxOf : Font → String → Int × Int × Int × Int
  saveFails : String → Bool

/-- Font size: the script computes `int(min(width, height) * 0.6)`.
In IEEE double arithmetic `0.6` is `0.6 - 1/(5 * 2^53)`, and for every
width in the size table (indeed for every magnitude this script can
meet) the product rounds so that truncation agrees with
`⌊6 * min(width, height) / 10⌋`; we embed that value. -/
def font_size (width height : Nat) : Nat :=
  min width height * 6 / 10

/-- Font resolution (lines 47-59 of the script): try Helvetica, on
failure try Arial, on failure fall back to `load_default()`, which
cannot fail; the outer handler also falls back to `load_default()`.  So
resolution is total. -/
def resolveFont (env : Env) (size : Nat) : Font :=
  if env.helveticaAvailable then
    Font.truetype "/System/Library/Fonts/Helvetica.ttc" size
  else if env.arialAvailable then
    Font.truetype "/System/Library/Fonts/Supplemental/Arial.ttf" size
  else
    Font.defaultFont

/-- The glyph bounding box the run obtains for the letter "S":
`draw.textbbox((0, 0), text, font=font)`. -/
def glyphBBox (env : Env) (width height : Nat) : Int × Int × Int × Int :=
  env.bboxOf (resolveFont env (font_size width height)) "S"

/-- `text_width = bbox[2] - bbox[0]`. -/
def text_width (env : Env) (width height : Nat) : Int :=
  (glyphBBox env width height).2.2.1 - (glyphBBox env width height).1

/-- `text_height = bbox[3] - bbox[1]`. -/
def text_height (env : Env) (width height : Nat) : Int :=
  (glyphBBox env width height).2.2.2 - (glyphBBox env width height).2.1

/-- The anchor position the script passes to `draw.text`:
`((width - text_width) // 2, (height - text_height) // 2 - bbox[1])`.
Python `//` on ints is floor division, `Int.fdiv`. -/
def text_position (env : Env) (width height : Nat) : Int × Int :=
  (Int.fdiv ((width : Int) - text_width env width height) 2,
   Int.fdiv ((height : Int) - text_height env width height) 2
     - (glyphBBox env width height).2.1)

/-- `create_placeholder_icon` (lines 30-68), up to but excluding the
save: builds the RGB image of the requested size, draws the rounded
rectangle over `[(0, 0), (width-1, height-1)]` with radius
`min(width, height) // 8`, stroke width `max(1, width // 64)`, and draws
the letter "S" at `text_position`.  The `filename` argument is only used
by the save step, which the run function models separately. -/
def create_placeholder_icon (env : Env) (filename : String)
    (width height : Nat) : Icon :=
  let border_radius := min width height / 8
  { mode := "RGB"
    width := width
    height := height
    background := "#4A90E2"
    cmds :=
      [ DrawCmd.roundedRect (0, 0) ((width : Int) - 1, (height : Int) - 1)
          border_radius "#5BA3F5" "#3A7BC8" (max 1 (width / 64)),
        DrawCmd.text (text_position env width height) "S" "white"
          (resolveFont env (font_size width height)) ] }

/-- The confirmation line printed after a successful save (line 73). -/
def confirmLine (filename : String) (width height : Nat) : String :=
  "✓ Created: " ++ filename ++ " (" ++ toString width ++ "x"
    ++ toString height ++ ")"

/-- The diagnostic printed when the output directory is missing
(line 79). -/
def missingDirLine : String :=
  "Error: Directory " ++ output_dir ++ " does not exist"

/-- The two header lines (lines 82-83); the second carries the trailing
newline of the f-string. -/
def headerLines : List String :=
  [ "Generating placeholder app icons...",
    "Output directory: " ++ output_dir ++ "\n" ]

/-- The completion notice (line 89). -/
def completionLine : String :=
  "\n✓ All placeholder icons generated successfully!"

/-- The fixed cautionary note (line 90). -/
def cautionLine : String :=
  "⚠️  Note: These are temporary placeholder images. Replace with actual app icons before release."

/-- Result of running `main`: lines printed, files written (filename and
image content, in write order), and whether an uncaught exception
escaped. -/
structure RunResult where
  output : List String
  files : List (String × Icon)
  raised : Bool
  deriving DecidableEq

/-- The loop body of `main` over a remaining list of table entries.  For
each entry the icon is built, then saved; if the save raises, nothing
later happens (no confirmation line for the failing entry, no further
entries) and the exception escapes.  Returns the confirmation lines and
files produced before the failure, and whether a failure occurred. -/
def processIcons (env : Env) :
    List (String × Nat × Nat) → List String × List (String × Icon) × Bool
  | [] => ([], [], false)
  | (filename, width, height) :: rest =>
    if env.saveFails filename then
      ([], [], true)
    else
      let r := processIcons env rest
      (confirmLine filename width height :: r.1,
       (filename, create_placeholder_icon env filename width height) :: r.2.1,
       r.2.2)

/-- `main` (lines 75-90): check the output directory once; if missing,
print the diagnostic and return (exit status 0).  Otherwise print the
header, generate each table entry in order, and — unless a save raised —
print the completion notice and the cautionary note.  The
`if __name__ == "__main__"` guard just calls `main()`; the process exit
status is 0 unless an exception escapes. -/
def runScript (env : Env) : RunResult :=
  if env.dirExists then
    let r := processIcons env sizes
    { output := headerLines ++ r.1
        ++ (if r.2.2 then [] else [completionLine, cautionLine])
      files := r.2.1
      raised := r.2.2 }
  else
    { output := [missingDirLine], files := [], raised := false }

/-- The process exit status: `main` never calls `sys.exit`, so the
interpreter exits 0 on normal return and 1 when an exception escapes. -/
def exitCode (r : RunResult) : Nat :=
  if r.raised then 1 else 0

/-- The corner radius of the rounded rectangle recorded on an icon. -/
def rectRadius (i : Icon) : Option Nat :=
  i.cmds.findSome? fun c => match c with
    | DrawCmd.roundedRect _ _ r _ _ _ => some r
    | _ => none

/-- The stroke width of the rounded rectangle recorded on an icon. -/
def rectStrokeWidth (i : Icon) : Option Nat :=
  i.cmds.findSome? fun c => match c with
    | DrawCmd.roundedRect _ _ _ _ _ w => some w
    | _ => none

/-- The two corners of the rounded rectangle recorded on an icon. -/
def rectCorners (i : Icon) : Option ((Int × Int) × (Int × Int)) :=
  i.cmds.findSome? fun c => match c with
    | DrawCmd.roundedRect c0 c1 _ _ _ _ => some (c0, c1)
    | _ => none

/-- The font of the text command recorded on an icon. -/
def textCmdFont (i : Icon) : Option Font :=
  i.cmds.findSome? fun c => match c with
    | DrawCmd.text _ _ _ f => some f
    | _ => none

/-- The region of the canvas the glyph's ink occupies:
`draw.textbbox` is translation-equivariant, so drawing the text at
`position` places the ink in the (0, 0) bounding box translated by
`position`. -/
def glyphCanvasBox (env : Env) (width height : Nat) : Int × Int × Int × Int :=
  ((text_position env width height).1 + (glyphBBox env width height).1,
   (text_position env width height).2 + (glyphBBox env width height).2.1,
   (text_position env width height).1 + (glyphBBox env width height).2.2.1,
   (text_position env width height).2 + (glyphBBox env width height).2.2.2)

/-- Pixels between the left canvas edge and the glyph. -/
def glyphLeftMargin (env : Env) (width height : Nat) : Int :=
  (glyphCanvasBox env width height).1

/-- Pixels between the glyph and the right canvas edge. -/
def glyphRightMargin (env : Env) (width height : Nat) : Int :=
  (width : Int) - (glyphCanvasBox env width height).2.2.1

/-- Pixels between the top canvas edge and the glyph. -/
def glyphTopMargin (env : Env) (width height : Nat) : Int :=
  (glyphCanvasBox env width height).2.1

/-- Pixels between the glyph and the bottom canvas edge. -/
def glyphBottomMargin (env : Env) (width height : Nat) : Int :=
  (height : Int) - (glyphCanvasBox env width height).2.2.2

/-- A run environment in which everything succeeds: the directory
exists, Helvetica loads, the font reports a degenerate glyph box at the
origin, and every save succeeds. -/
def sampleEnv : Env :=
  { dirExists := true
    helveticaAvailable := true
    arialAvailable := false
    bboxOf := fun _ _ => (0, 0, 0, 0)
    saveFails := fun _ => false }

/-- Like `sampleEnv`, but the font reports a glyph box with a positive
left-side bearing of 10 pixels, as real proportional fonts do:
`textbbox((0, 0), "S")` returns (10, 0, 110, 100). -/
def bearingEnv : Env :=
  { dirExists := true
    helveticaAvailable := true
    arialAvailable := false
    bboxOf := fun _ _ => (10, 0, 110, 100)
    saveFails := fun _ => false }

/-- An environment in which the output directory is missing. -/
def noDirEnv : Env :=
  { dirExists := false
    helveticaAvailable := true
    arialAvailable := false
    bboxOf := fun _ _ => (0, 0, 0, 0)
    saveFails := fun _ => false }

/-- An environment in which saving the second table entry
("AppIcon-20x20@2x.png") raises. -/
def failEnv : Env :=
  { dirExists := true
    helveticaAvailable := true
    arialAvailable := false
    bboxOf := fun _ _ => (0, 0, 0, 0)
    saveFails := fun fn => fn == "AppIcon-20x20@2x.png" }

/-! ### Helper lemmas -/

/-- When no save in the list fails, the loop emits one confirmation line
and one file per entry, in order, and no exception is raised. -/
theorem processIcons_no_fail (env : Env) (l : List (String × Nat × Nat))
    (h : ∀ e ∈ l, env.saveFails e.1 = false) :
    processIcons env l =
      (l.map fun e => confirmLine e.1 e.2.1 e.2.2,
       l.map fun e => (e.1, create_placeholder_icon env e.1 e.2.1 e.2.2),
       false) := by
  induction l with
  | nil => rfl
  | cons a rest ih =>
    obtain ⟨fn, w, ht⟩ := a
    have h0 : env.saveFails fn = false := h (fn, w, ht) (List.mem_cons_self _ _)
    have hr := ih fun e he => h e (List.mem_cons_of_mem _ he)
    simp [processIcons, h0, hr]

/-- When the save of the entry at position `i` fails and every earlier
save succeeds, the loop stops there: the confirmation lines and files
are exactly those of the first `i` entries and the exception flag is
set. -/
theorem processIcons_fail_at (env : Env) :
    ∀ (l : List (String × Nat × Nat)) (i : Nat) (hi : i < l.length),
    (∀ e ∈ l.take i, env.saveFails e.1 = false) →
    env.saveFails (l.get ⟨i, hi⟩).1 = true →
    processIcons env l =
      ((l.take i).map fun e => confirmLine e.1 e.2.1 e.2.2,
       (l.take i).map fun e => (e.1, create_placeholder_icon env e.1 e.2.1 e.2.2),
       true) := by
  intro l
  induction l with
  | nil => intro i hi; exact absurd hi (by simp)
  | cons a rest ih =>
    intro i hi hbefore hfail
    obtain ⟨fn, w, ht⟩ := a
    cases i with
    | zero =>
      simp only [List.get] at hfail
      simp [processIcons, hfail]
    | succ j =>
      have h0 : env.saveFails fn = false :=
        hbefore (fn, w, ht) (by simp)
      have hj : j < rest.length := by
        simpa using Nat.lt_of_succ_lt_succ hi
      have hr := ih j hj
        (fun e he => hbefore e (by simp [he]))
        (by simpa using hfail)
      simp [processIcons, h0, hr]

/-- The confirmation lines and the exception flag of the loop depend on
the environment only through `saveFails`: in particular the font
availability flags and the glyph metrics never influence them. -/
theorem processIcons_output_eq (env1 env2 : Env)
    (hsave : env1.saveFails = env2.saveFails) :
    ∀ l : List (String × Nat × Nat),
      (processIcons env1 l).1 = (processIcons env2 l).1 ∧
      (processIcons env1 l).2.2 = (processIcons env2 l).2.2 := by
  intro l
  induction l with
  | nil => exact ⟨rfl, rfl⟩
  | cons a rest ih =>
    obtain ⟨fn, w, ht⟩ := a
    simp only [processIcons, hsave]
    cases h : env2.saveFails fn with
    | true => simp
    | false => simpa using ih

/-! ### Claim theorems -/

/-- C1: the static size table contains exactly 15 (filename, width,
height) entries with distinct filenames, every declared size is a
positive integer pair, and for every entry the produced image's pixel
dimensions exactly equal the declared (width, height). -/
theorem size_table_correct :
    sizes.length = 15 ∧
    (sizes.map (·.1)).Nodup ∧
    (∀ e ∈ sizes, 0 < e.2.1 ∧ 0 < e.2.2) ∧
    (∀ (env : Env), ∀ e ∈ sizes,
      (create_placeholder_icon env e.1 e.2.1 e.2.2).width = e.2.1 ∧
      (create_placeholder_icon env e.1 e.2.1 e.2.2).height = e.2.2) :=
  ⟨by decide, by decide, by decide, fun _ _ _ => ⟨rfl, rfl⟩⟩

/-- Witness for C1 at the 1024×1024 entry and a concrete environment. -/
theorem size_table_correct_witness :
    ("AppIcon-1024x1024.png", 1024, 1024) ∈ sizes ∧
    (create_placeholder_icon sampleEnv "AppIcon-1024x1024.png" 1024 1024).width
      = 1024 :=
  ⟨by decide,
   (size_table_correct.2.2.2 sampleEnv ("AppIcon-1024x1024.png", 1024, 1024)
      (by decide)).1⟩

/-- C2: if the output directory does not exist, the run prints the
diagnostic line and terminates early, writing no image files. -/
theorem missing_dir_aborts (env : Env) (h : env.dirExists = false) :
    runScript env =
      { output := [missingDirLine], files := [], raised := false } := by
  simp [runScript, h]

/-- Witness for C2 at the concrete environment without the directory. -/
theorem missing_dir_aborts_witness :
    runScript noDirEnv =
      { output := [missingDirLine], files := [], raised := false } :=
  missing_dir_aborts noDirEnv rfl

/-- C3: for every (width, height), the drawn rounded rectangle's corner
radius is ⌊min(width, height) / 8⌋ and its stroke width is
max(1, ⌊width / 64⌋); in particular at 1024×1024 the radius is 128 and
the stroke width is 16. -/
theorem rect_radius_and_stroke (env : Env) (filename : String)
    (width height : Nat) :
    rectRadius (create_placeholder_icon env filename width height)
      = some (min width height / 8) ∧
    rectStrokeWidth (create_placeholder_icon env filename width height)
      = some (max 1 (width / 64)) ∧
    rectRadius (create_placeholder_icon env "AppIcon-1024x1024.png" 1024 1024)
      = some 128 ∧
    rectStrokeWidth
      (create_placeholder_icon env "AppIcon-1024x1024.png" 1024 1024)
      = some 16 :=
  ⟨rfl, rfl, rfl, rfl⟩

/-- C9: even when the output directory is missing, the run terminates
normally (no exception) with exit status 0, and the failure is visible
only in the printed diagnostic. -/
theorem missing_dir_exit_zero (env : Env) (h : env.dirExists = false) :
    (runScript env).raised = false ∧
    exitCode (runScript env) = 0 ∧
    (runScript env).output = [missingDirLine] := by
  simp [runScript, exitCode, h]

/-- Witness for C9 at the concrete environment without the directory. -/
theorem missing_dir_exit_zero_witness :
    (runScript noDirEnv).raised = false ∧
    exitCode (runScript noDirEnv) = 0 ∧
    (runScript noDirEnv).output = [missingDirLine] :=
  missing_dir_exit_zero noDirEnv rfl

/-- C4: the run is a pure function of the environment — two runs under
an identical environment produce identical results file-for-file — and
the image content of an entry is a function of (width, height) alone:
the filename only names the output, it never influences the pixels. -/
theorem run_deterministic :
    (∀ env1 env2 : Env, env1 = env2 → runScript env1 = runScript env2) ∧
    (∀ (env : Env) (fn1 fn2 : String) (width height : Nat),
      create_placeholder_icon env fn1 width height
        = create_placeholder_icon env fn2 width height) :=
  ⟨fun _ _ h => h ▸ rfl, fun _ _ _ _ _ => rfl⟩

/-- Witness for C4: two runs under the sample environment coincide, and
the two 120×120 entries get identical image content. -/
theorem run_deterministic_witness :
    runScript sampleEnv = runScript sampleEnv ∧
    create_placeholder_icon sampleEnv "AppIcon-40x40@3x.png" 120 120
      = create_placeholder_icon sampleEnv "AppIcon-60x60@2x.png" 120 120 :=
  ⟨run_deterministic.1 sampleEnv sampleEnv rfl,
   run_deterministic.2 sampleEnv "AppIcon-40x40@3x.png" "AppIcon-60x60@2x.png"
     120 120⟩

/-- C6: font resolution is the total fallback chain Helvetica → Arial →
built-in default, and font availability never influences the printed
lines or whether the run fails: a font-loading failure is absorbed and
never reported. -/
theorem font_fallback_silent :
    (∀ (env : Env) (size : Nat),
      resolveFont env size =
        if env.helveticaAvailable then
          Font.truetype "/System/Library/Fonts/Helvetica.ttc" size
        else if env.arialAvailable then
          Font.truetype "/System/Library/Fonts/Supplemental/Arial.ttf" size
        else
          Font.defaultFont) ∧
    (∀ env1 env2 : Env,
      env1.dirExists = env2.dirExists →
      env1.saveFails = env2.saveFails →
      (runScript env1).output = (runScript env2).output ∧
      (runScript env1).raised = (runScript env2).raised) := by
  refine ⟨fun _ _ => rfl, fun env1 env2 hdir hsave => ?_⟩
  obtain ⟨ho, hr⟩ := processIcons_output_eq env1 env2 hsave sizes
  cases h2 : env2.dirExists with
  | false => simp [runScript, hdir, h2]
  | true => simp [runScript, hdir, h2, ho, hr]

/-- Witness for C6: an environment with Helvetica and one where only
Arial loads print the same lines and both succeed. -/
theorem font_fallback_silent_witness :
    resolveFont sampleEnv 614
      = Font.truetype "/System/Library/Fonts/Helvetica.ttc" 614 ∧
    (runScript sampleEnv).output =
      (runScript { sampleEnv with
        helveticaAvailable := false, arialAvailable := true }).output :=
  ⟨font_fallback_silent.1 sampleEnv 614,
   (font_fallback_silent.2 sampleEnv
      { sampleEnv with helveticaAvailable := false, arialAvailable := true }
      rfl rfl).1⟩

/-- C7 counterexample: the claim that the rounded rectangle's bounding
box lies strictly inside the canvas is false — at the 20×20 entry (as at
every entry) the recorded corners are (0, 0) and (19, 19), which
coincide with the canvas's pixel extent. -/
theorem rect_inset_counterexample :
    ¬ ∀ (env : Env), ∀ e ∈ sizes,
        ∀ c, rectCorners (create_placeholder_icon env e.1 e.2.1 e.2.2)
            = some c →
          0 < c.1.1 ∧ 0 < c.1.2 ∧
          c.2.1 < (e.2.1 : Int) - 1 ∧ c.2.2 < (e.2.2 : Int) - 1 := by
  intro h
  have h2 := h sampleEnv ("AppIcon-20x20@1x.png", 20, 20) (by decide)
    ((0, 0), (19, 19)) rfl
  exact absurd h2.1 (by decide)

/-- C7 amended: for every entry the rounded rectangle is drawn over the
full canvas, with corners (0, 0) and (width−1, height−1) — the
inclusive-coordinate extent of the canvas itself, not an inset box. -/
theorem rect_spans_canvas (env : Env) (filename : String)
    (width height : Nat) :
    rectCorners (create_placeholder_icon env filename width height)
      = some ((0, 0), ((width : Int) - 1, (height : Int) - 1)) :=
  rfl

/-- C8: on a fully successful run the script prints, in order, the two
header lines, one confirmation line per table entry in table order, the
completion notice and the cautionary note; the files are written in
table order. -/
theorem output_order (env : Env) (hdir : env.dirExists = true)
    (hsave : ∀ fn, env.saveFails fn = false) :
    (runScript env).output =
      headerLines ++ (sizes.map fun e => confirmLine e.1 e.2.1 e.2.2)
        ++ [completionLine, cautionLine] ∧
    (runScript env).files.map (·.1) = sizes.map (·.1) ∧
    (runScript env).raised = false := by
  have hp := processIcons_no_fail env sizes fun e _ => hsave e.1
  simp [runScript, hdir, hp, Function.comp]

/-- Witness for C8 at the sample environment. -/
theorem output_order_witness :
    (runScript sampleEnv).output =
      headerLines ++ (sizes.map fun e => confirmLine e.1 e.2.1 e.2.2)
        ++ [completionLine, cautionLine] ∧
    (runScript sampleEnv).files.map (·.1) = sizes.map (·.1) ∧
    (runScript sampleEnv).raised = false :=
  output_order sampleEnv rfl fun _ => rfl

/-- C10: the directory check happens once, before the loop; if the save
of the entry at position `i` raises while all earlier saves succeeded,
the exception escapes (nonzero exit status), the files of the entries
before `i` remain written, and no completion notice is printed — there
is no atomicity or cleanup across entries. -/
theorem save_failure_midrun (env : Env) (hdir : env.dirExists = true)
    (i : Nat) (hi : i < sizes.length)
    (hbefore : ∀ e ∈ sizes.take i, env.saveFails e.1 = false)
    (hfail : env.saveFails (sizes.get ⟨i, hi⟩).1 = true) :
    (runScript env).raised = true ∧
    (runScript env).files =
      (sizes.take i).map
        (fun e => (e.1, create_placeholder_icon env e.1 e.2.1 e.2.2)) ∧
    (runScript env).output =
      headerLines ++ (sizes.take i).map
        (fun e => confirmLine e.1 e.2.1 e.2.2) ∧
    exitCode (runScript env) = 1 := by
  have hp := processIcons_fail_at env sizes i hi hbefore hfail
  simp [runScript, exitCode, hdir, hp]

/-- Witness for C10: the second save fails, the first file survives and
the run exits with status 1. -/
theorem save_failure_midrun_witness :
    (runScript failEnv).raised = true ∧ exitCode (runScript failEnv) = 1 :=
  ⟨(save_failure_midrun failEnv rfl 1 (by decide) (by decide) (by decide)).1,
   (save_failure_midrun failEnv rfl 1 (by decide) (by decide)
      (by decide)).2.2.2⟩

/-- C5 counterexample: the claim that the glyph is rendered centered
both horizontally and vertically fails for a font whose reported glyph
box has a positive left-side bearing: with `textbbox = (10, 0, 110,
100)` on the 1024×1024 entry the left margin is 472 and the right margin
452, 20 pixels apart.  The script compensates the vertical bearing
`bbox[1]` but not the horizontal bearing `bbox[0]`. -/
theorem glyph_centering_counterexample :
    ¬ ∀ (env : Env), ∀ e ∈ sizes,
        |glyphLeftMargin env e.2.1 e.2.2 - glyphRightMargin env e.2.1 e.2.2|
          ≤ 1 ∧
        |glyphTopMargin env e.2.1 e.2.2 - glyphBottomMargin env e.2.1 e.2.2|
          ≤ 1 := by
  intro h
  have h2 := (h bearingEnv ("AppIcon-1024x1024.png", 1024, 1024) (by decide)).1
  exact absurd h2 (by decide)

/-- C5 amended: the glyph is drawn with the font resolved at size
`int(min(width, height) * 0.6)` — 614 on the 1024×1024 canvas — and is
vertically centered (bottom and top margins differ by the parity bit of
`height - text_height`, hence by at most one pixel).  Horizontally the
anchor is `(width - text_width) // 2`, which does not compensate the
glyph box's left bearing `bbox[0]`: the margin difference is
`2·bbox[0]` minus a parity bit, so the glyph is centered (within one
pixel) exactly when the font reports a zero left bearing. -/
theorem glyph_size_and_centering (env : Env) (filename : String)
    (width height : Nat) :
    textCmdFont (create_placeholder_icon env filename width height)
      = some (resolveFont env (font_size width height)) ∧
    font_size width height = min width height * 6 / 10 ∧
    font_size 1024 1024 = 614 ∧
    glyphBottomMargin env width height - glyphTopMargin env width height
      = ((height : Int) - text_height env width height).fmod 2 ∧
    0 ≤ glyphBottomMargin env width height - glyphTopMargin env width height ∧
    glyphBottomMargin env width height - glyphTopMargin env width height
      ≤ 1 ∧
    glyphLeftMargin env width height - glyphRightMargin env width height
      = 2 * (glyphBBox env width height).1
        - ((width : Int) - text_width env width height).fmod 2 ∧
    ((glyphBBox env width height).1 = 0 →
      |glyphLeftMargin env width height - glyphRightMargin env width height|
        ≤ 1) := by
  have hfm1 := Int.fmod_add_fdiv
    ((height : Int) - text_height env width height) 2
  have hfm2 := Int.fmod_add_fdiv
    ((width : Int) - text_width env width height) 2
  have h01 : 0 ≤ ((height : Int) - text_height env width height).fmod 2 := by
    rw [Int.fmod_eq_emod _ (by norm_num)]
    exact Int.emod_nonneg _ (by norm_num)
  have h02 : ((height : Int) - text_height env width height).fmod 2 < 2 := by
    rw [Int.fmod_eq_emod _ (by norm_num)]
    exact Int.emod_lt_of_pos _ (by norm_num)
  have h03 : 0 ≤ ((width : Int) - text_width env width height).fmod 2 := by
    rw [Int.fmod_eq_emod _ (by norm_num)]
    exact Int.emod_nonneg _ (by norm_num)
  have h04 : ((width : Int) - text_width env width height).fmod 2 < 2 := by
    rw [Int.fmod_eq_emod _ (by norm_num)]
    exact Int.emod_lt_of_pos _ (by norm_num)
  refine ⟨rfl, rfl, rfl, ?_, ?_, ?_, ?_, ?_⟩
  · simp only [glyphBottomMargin, glyphTopMargin, glyphCanvasBox,
      text_position, text_height] at *
    linarith
  · simp only [glyphBottomMargin, glyphTopMargin, glyphCanvasBox,
      text_position, text_height] at *
    linarith
  · simp only [glyphBottomMargin, glyphTopMargin, glyphCanvasBox,
      text_position, text_height] at *
    linarith
  · simp only [glyphLeftMargin, glyphRightMargin, glyphCanvasBox,
      text_position, text_width] at *
    linarith
  · intro hzero
    rw [abs_le]
    simp only [glyphLeftMargin, glyphRightMargin, glyphCanvasBox,
      text_position, text_width, hzero] at *
    constructor <;> linarith

/-- Witness for C5's amended theorem at the sample environment, whose
font reports a zero left bearing. -/
theorem glyph_size_and_centering_witness :
    font_size 1024 1024 = 614 ∧
    |glyphLeftMargin sampleEnv 1024 1024 - glyphRightMargin sampleEnv 1024 1024|
      ≤ 1 :=
  ⟨(glyph_size_and_centering sampleEnv "AppIcon-1024x1024.png"
      1024 1024).2.2.1,
   (glyph_size_and_centering sampleEnv "AppIcon-1024x1024.png"
      1024 1024).2.2.2.2.2.2.2 rfl⟩

end PlaceholderIcons
